import Mathlib

/-!
Shallow embedding of the Vulkan device-selection and resource-ownership code
(`src/main.rs` and the `vku` wrapper modules) of the repository, together with
theorems about the selection algorithm, swapchain parameter derivation, queue
family resolution, error propagation, destruction order and the out-of-range
behaviour of `PhysicalDevList::select`.

Machine integers (`u32`) are modelled as `Nat`; wrap-around is written
explicitly (`% 2 ^ 32`) where the source performs arithmetic that can
overflow.  Fallible native queries are modelled as `Except`-valued fields of
an abstract physical-device record: the `vku` wrapper functions are direct
calls into the driver, so the record fields are exactly the driver's answers.
-/

/-- `u32::MAX`. -/
def u32Max : Nat := 2 ^ 32 - 1

/-- `vk::Extent2D`. -/
structure Extent2D where
  width : Nat
  height : Nat
deriving DecidableEq, Repr

/-- `vk::SurfaceFormatKHR`. -/
structure SurfaceFormatKHR where
  format : Nat
  colorSpace : Nat
deriving DecidableEq, Repr

/-- `vk::Format::R8G8B8A8_SRGB` (value 43 in the Vulkan headers). -/
def FORMAT_R8G8B8A8_SRGB : Nat := 43

/-- `vk::ColorSpaceKHR::SRGB_NONLINEAR` (value 0). -/
def COLOR_SPACE_SRGB_NONLINEAR : Nat := 0

/-- `vk::PresentModeKHR::MAILBOX` (value 1). -/
def PRESENT_MODE_MAILBOX : Nat := 1

/-- `vk::PresentModeKHR::FIFO` (value 2). -/
def PRESENT_MODE_FIFO : Nat := 2

/-- `vk::PhysicalDeviceType::INTEGRATED_GPU` (value 1). -/
def PHYSICAL_DEVICE_TYPE_INTEGRATED_GPU : Nat := 1

/-- `vk::PhysicalDeviceType::DISCRETE_GPU` (value 2). -/
def PHYSICAL_DEVICE_TYPE_DISCRETE_GPU : Nat := 2

/-- `vk::QueueFlags::GRAPHICS` (bit 0x1). -/
def QUEUE_GRAPHICS_BIT : Nat := 1

/-- `vk::SurfaceCapabilitiesKHR` (the fields the program reads). -/
structure SurfaceCapabilitiesKHR where
  minImageCount : Nat
  maxImageCount : Nat
  currentExtent : Extent2D
  minImageExtent : Extent2D
  maxImageExtent : Extent2D
deriving DecidableEq, Repr

/-- `vk::QueueFamilyProperties` (the field the program reads). -/
structure QueueFamilyProperties where
  queueFlags : Nat
deriving DecidableEq, Repr

/-- `vku::Error`: the single error kind wrapping a native Vulkan status code
(`src/vku/result.rs`). -/
inductive VkuError where
  | vulkan (code : Int)
deriving DecidableEq, Repr

/-- `AppError` from `src/main.rs`: a propagated `vku` error or the
no-suitable-device error. -/
inductive AppError where
  | vku (e : VkuError)
  | noSuitablePhyDev
deriving DecidableEq, Repr

/-- The name of the `VK_KHR_swapchain` device extension
(`khr::Swapchain::name()`). -/
def swapchainExtName : String := "VK_KHR_swapchain"

/-- An abstract physical device: one entry of `PhysicalDevList`.  Each field
is the answer the native driver gives to the corresponding `PhysicalDevRef`
query in `src/vku/physical_dev.rs`; fallible queries are `Except`-valued. -/
structure PhysicalDev where
  /-- `features().tessellation_shader` (a `vk::Bool32`). -/
  featuresTessellationShader : Nat
  /-- `properties().device_type`. -/
  deviceType : Nat
  /-- `extension_properties()`, with each entry's `extension_name` read as a
  string. -/
  extensionProperties : Except VkuError (List String)
  /-- `queue_families()` (infallible in `ash`). -/
  queueFamilies : List QueueFamilyProperties
  /-- `supports_surface(queue_family_index)`. -/
  supportsSurface : Nat → Except VkuError Bool
  /-- `surface_capabilities()`. -/
  surfaceCapabilities : Except VkuError SurfaceCapabilitiesKHR
  /-- `surface_formats()`. -/
  surfaceFormats : Except VkuError (List SurfaceFormatKHR)
  /-- `surface_present_modes()`. -/
  surfacePresentModes : Except VkuError (List Nat)
  /-- The driver's answer to `create_device` for this device. -/
  createDevice : Except VkuError Unit

/-- `vku::QueueFamilyInfo` (`src/vku` crate, `queue_family.rs`): a queue
family index and its queue priorities.  Priorities are `f32` in the source;
the only value the program ever uses is the exactly representable `1.0`, so
they are modelled as rationals. -/
structure QueueFamilyInfo where
  index : Nat
  priorities : List Rat
deriving DecidableEq

/-- `VkCreateInfo` from `src/main.rs`, with `Default` values (`vk` defaults
are all zero). -/
structure VkCreateInfo where
  graphicsQueueId : Nat := 0
  presentQueueId : Nat := 0
  swapchainFmt : SurfaceFormatKHR := ⟨0, 0⟩
  swapchainPmode : Nat := 0
  swapchainExtent : Extent2D := ⟨0, 0⟩
  swapchainImgs : Nat := 0
deriving DecidableEq, Repr

/-- `u32::clamp(self, min, max)` as the Rust standard library computes it
(defined when `min ≤ max`; the source relies on the driver reporting a
well-formed extent range). -/
def rustClamp (x lo hi : Nat) : Nat :=
  if x < lo then lo else if x > hi then hi else x

/-- `Iterator::position(p)`: index of the first element satisfying `p`. -/
def position (p : α → Bool) : List α → Option Nat
  | [] => none
  | a :: rest => if p a then some 0 else Option.map Nat.succ (position p rest)

/-- `Range::find` for `(start..start+len).find(p)`: the first integer in the
range satisfying `p`. -/
def findRangeFrom (p : Nat → Bool) : Nat → Nat → Option Nat
  | _, 0 => none
  | i, n + 1 => if p i then some i else findRangeFrom p (i + 1) n

/-- `Result::unwrap_or` on a surface-support query. -/
def resultUnwrapOr (r : Except VkuError Bool) (dflt : Bool) : Bool :=
  match r with
  | .ok b => b
  | .error _ => dflt

/-- The lazy iterator chain `fmts.iter().filter(|fmt| fmt.format ==
R8G8B8A8_SRGB).find(|fmt| fmt.color_space == SRGB_NONLINEAR)`: one pass
returning the first entry passing both tests. -/
def findPreferredFormat : List SurfaceFormatKHR → Option SurfaceFormatKHR
  | [] => none
  | fmt :: rest =>
    if fmt.format == FORMAT_R8G8B8A8_SRGB && fmt.colorSpace == COLOR_SPACE_SRGB_NONLINEAR
    then some fmt
    else findPreferredFormat rest

/-- The format preference of `get_swapchain_properties`
(`src/main.rs` lines 157-161): the first reported format that is
`R8G8B8A8_SRGB` with `SRGB_NONLINEAR` color space, else the first reported
format (`or_else(|| fmts.first())`), else failure. -/
def chooseFormat (fmts : List SurfaceFormatKHR) : Option SurfaceFormatKHR :=
  match findPreferredFormat fmts with
  | some fmt => some fmt
  | none => fmts.head?

/-- The present-mode preference of `get_swapchain_properties`
(`src/main.rs` lines 163-169): fail on an empty list, otherwise mailbox when
reported, else FIFO. -/
def choosePresentMode (pmods : List Nat) : Option Nat :=
  if pmods.isEmpty then none
  else some (if pmods.contains PRESENT_MODE_MAILBOX then PRESENT_MODE_MAILBOX
             else PRESENT_MODE_FIFO)

/-- The extent derivation of `get_swapchain_properties`
(`src/main.rs` lines 171-189): the window size clamped into the reported
extent range when the current extent is the `(u32::MAX, u32::MAX)` sentinel,
the current extent verbatim otherwise. -/
def deriveExtent (caps : SurfaceCapabilitiesKHR) (winSize : Extent2D) : Extent2D :=
  if caps.currentExtent.width = u32Max ∧ caps.currentExtent.height = u32Max then
    { width := rustClamp winSize.width caps.minImageExtent.width caps.maxImageExtent.width
      height := rustClamp winSize.height caps.minImageExtent.height caps.maxImageExtent.height }
  else caps.currentExtent

/-- The image-count derivation of `get_swapchain_properties`
(`src/main.rs` lines 191-194), with `u32` wrap-around written explicitly. -/
def deriveImageCount (caps : SurfaceCapabilitiesKHR) : Nat :=
  if caps.maxImageCount = 0 then (caps.minImageCount + 1) % 2 ^ 32
  else Nat.min caps.maxImageCount ((caps.minImageCount + 1) % 2 ^ 32)

/-- `VkCreateInfo::get_swapchain_properties` (`src/main.rs` lines 146-203):
queries capabilities, formats and present modes (each query failure rejects
the device), chooses format and present mode, derives extent and image
count. -/
def VkCreateInfo.getSwapchainProperties (self : VkCreateInfo) (dev : PhysicalDev)
    (winSize : Extent2D) : Option VkCreateInfo :=
  match dev.surfaceCapabilities with
  | .error _ => none
  | .ok caps =>
    match dev.surfaceFormats with
    | .error _ => none
    | .ok fmts =>
      match dev.surfacePresentModes with
      | .error _ => none
      | .ok pmods =>
        match chooseFormat fmts with
        | none => none
        | some format =>
          match choosePresentMode pmods with
          | none => none
          | some pmode =>
            some { self with
              swapchainFmt := format
              swapchainPmode := pmode
              swapchainExtent := deriveExtent caps winSize
              swapchainImgs := deriveImageCount caps }

/-- The graphics check of `get_queue_family_indices`:
`fam.queue_flags.contains(vk::QueueFlags::GRAPHICS)` (bit-flag containment:
`flags & bit == bit`). -/
def hasGraphicsFlag (fam : QueueFamilyProperties) : Bool :=
  (fam.queueFlags &&& QUEUE_GRAPHICS_BIT) == QUEUE_GRAPHICS_BIT

/-- `VkCreateInfo::get_queue_family_indices` (`src/main.rs` lines 207-227):
first queue family with the graphics flag, and first queue family index whose
surface-support query answers `Ok(true)` (`unwrap_or(false)` turns a native
failure into `false`). -/
def VkCreateInfo.getQueueFamilyIndices (self : VkCreateInfo) (dev : PhysicalDev) :
    Option VkCreateInfo :=
  match position hasGraphicsFlag dev.queueFamilies with
  | none => none
  | some graphicsQueueId =>
    match findRangeFrom (fun fam => resultUnwrapOr (dev.supportsSurface fam) false)
        0 dev.queueFamilies.length with
    | none => none
    | some presentQueueId =>
      some { self with graphicsQueueId := graphicsQueueId, presentQueueId := presentQueueId }

/-- The device types `VkCreateInfo::new` accepts. -/
def acceptedDevTypes : List Nat :=
  [PHYSICAL_DEVICE_TYPE_DISCRETE_GPU, PHYSICAL_DEVICE_TYPE_INTEGRATED_GPU]

/-- `VkCreateInfo::new` (`src/main.rs` lines 105-140): the whole suitability
check for one device.  A failing `extension_properties` query (`.ok()?`)
rejects the device; then the tessellation-shader feature and device type are
checked, then presence of every required extension; swapchain parameters are
derived only when the swapchain extension is required; finally the queue
family indices are resolved. -/
def VkCreateInfo.new (dev : PhysicalDev) (devExts : List String) (winSize : Extent2D) :
    Option VkCreateInfo :=
  match dev.extensionProperties with
  | .error _ => none
  | .ok exts =>
    if dev.featuresTessellationShader == 0 || !(acceptedDevTypes.contains dev.deviceType) then
      none
    else if !(devExts.all fun extName => exts.contains extName) then
      none
    else
      match (if devExts.contains swapchainExtName then
               VkCreateInfo.getSwapchainProperties {} dev winSize
             else some {}) with
      | none => none
      | some createInfo => createInfo.getQueueFamilyIndices dev

/-- The device-selection loop of `VulkanState::create` (`src/main.rs` lines
68-73): `iter().enumerate().filter_map(|(i, dev)| Some((i, VkCreateInfo::new(…)?))).next()`. -/
def findSuitable (devExts : List String) (winSize : Extent2D) :
    List PhysicalDev → Option (Nat × VkCreateInfo)
  | [] => none
  | dev :: rest =>
    match VkCreateInfo.new dev devExts winSize with
    | some ci => some (0, ci)
    | none => Option.map (fun r => (r.1 + 1, r.2)) (findSuitable devExts winSize rest)

/-- The selection step of `VulkanState::create` with its
`ok_or(AppError::NoSuitablePhyDev)`. -/
def VulkanState.selectDevice (devExts : List String) (winSize : Extent2D)
    (devs : List PhysicalDev) : Except AppError (Nat × VkCreateInfo) :=
  match findSuitable devExts winSize devs with
  | some r => .ok r
  | none => .error AppError.noSuitablePhyDev

/-- `VkCreateInfo::queue_family_creation_infos` (`src/main.rs` lines
230-243): the pair of resolved indices, de-duplicated in order, each entry
with the single priority `1.0`. -/
def VkCreateInfo.queueFamilyCreationInfos (self : VkCreateInfo) : List QueueFamilyInfo :=
  let arr := [self.graphicsQueueId, self.presentQueueId]
  arr.foldl
    (fun vec n =>
      if vec.any fun i => i.index == n then vec
      else vec ++ [{ index := n, priorities := [1] }])
    []

/-- The QueueFamilyPlan invariant stated by the specification (data model,
`QueueFamilyPlan`): at least one entry, indices unique within the set, each
priority list summing to `1.0`.  (The length-vs-queue-count bound is relative
to one device and is the caller's obligation, per the same spec sentence.) -/
def QueueFamilyPlanInvariant (plan : List QueueFamilyInfo) : Prop :=
  plan ≠ [] ∧ (plan.map QueueFamilyInfo.index).Nodup ∧
    ∀ info ∈ plan, info.priorities.sum = 1

/-- The native resources the ownership chain creates and destroys. -/
inductive NativeResource where
  | vkInstance
  | debugMessenger
  | vkSurface
  | vkDevice
deriving DecidableEq, Repr

/-- The statically nested ownership chains the wrapper types can form:
`Instance` at the root, each other wrapper owning its inner holder
(`DebugUtils<I>`, `Surface<I>`, `PhysicalDevList<I>`, `LogicalDev<I>`). -/
inductive Chain where
  | inst
  | debugUtils (inner : Chain)
  | surface (inner : Chain)
  | physicalDevList (inner : Chain)
  | logicalDev (inner : Chain)

/-- The native creation calls a chain performs, in program order: each
wrapper's constructor first builds (or receives) its inner holder, then makes
its own native create call.  `PhysicalDevList::list` only enumerates and
creates no native resource. -/
def creationTrace : Chain → List NativeResource
  | .inst => [.vkInstance]
  | .debugUtils c => creationTrace c ++ [.debugMessenger]
  | .surface c => creationTrace c ++ [.vkSurface]
  | .physicalDevList c => creationTrace c
  | .logicalDev c => creationTrace c ++ [.vkDevice]

/-- The native destroy calls Rust drop glue performs when the outermost
wrapper is dropped: each wrapper's own `Drop::drop` (its native destroy) runs
first, then its fields — the inner holder among them — are dropped
(`Drop for Instance`, `Drop for DebugUtils`, `Drop for Surface`,
`Drop for LogicalDev`; `PhysicalDevList` has no `Drop` impl). -/
def dropTrace : Chain → List NativeResource
  | .inst => [.vkInstance]
  | .debugUtils c => .debugMessenger :: dropTrace c
  | .surface c => .vkSurface :: dropTrace c
  | .physicalDevList c => dropTrace c
  | .logicalDev c => .vkDevice :: dropTrace c

/-- The outcome of running `PhysicalDevList::select`: a value, a typed native
error, or a panic. -/
inductive RunResult (α : Type) where
  | ok (value : α)
  | vkErr (e : VkuError)
  | panic
deriving DecidableEq, Repr

/-- `PhysicalDevList` (`src/vku/physical_dev.rs`): the enumerated device
handles (the owning instance chain is irrelevant to `select`'s control
flow). -/
structure PhysicalDevList where
  devices : List PhysicalDev

/-- `PhysicalDevList::select` (`src/vku/physical_dev.rs` lines 86-119),
parametrised over whether `debug_assert!` is compiled in: the two debug
assertions (non-empty plan, pairwise distinct family indices), then
`self.devices.get(selected_dev).unwrap()` — an unconditional panic on an
out-of-range index in every build — then the native `create_device` call. -/
def PhysicalDevList.select (l : PhysicalDevList) (debugAssertions : Bool)
    (selectedDev : Nat) (queueFamilyInfos : List QueueFamilyInfo) : RunResult Unit :=
  if debugAssertions ∧ queueFamilyInfos.isEmpty then .panic
  else if debugAssertions ∧ ¬(queueFamilyInfos.map QueueFamilyInfo.index).Nodup then .panic
  else
    match l.devices.get? selectedDev with
    | none => .panic
    | some dev =>
      match dev.createDevice with
      | .ok _ => .ok ()
      | .error e => .vkErr e

/-- The preferred surface format: 8-bit RGBA SRGB with the non-linear SRGB
color space. -/
def targetFormat : SurfaceFormatKHR :=
  { format := FORMAT_R8G8B8A8_SRGB, colorSpace := COLOR_SPACE_SRGB_NONLINEAR }

/-- Some queue family of the device has the graphics flag. -/
def HasGraphicsFamily (dev : PhysicalDev) : Prop :=
  ∃ j fam, dev.queueFamilies.get? j = some fam ∧ hasGraphicsFlag fam = true

/-- Queue family `i` reports presentation support against the bound surface
(the query answers `Ok(true)`). -/
def ReportsPresentSupport (dev : PhysicalDev) (i : Nat) : Prop :=
  dev.supportsSurface i = Except.ok true

/-- Some queue family index of the device reports presentation support. -/
def HasPresentFamily (dev : PhysicalDev) : Prop :=
  ∃ i, i < dev.queueFamilies.length ∧ ReportsPresentSupport dev i

/-- `g` is the first queue family index whose flags include graphics. -/
def IsFirstGraphicsIdx (dev : PhysicalDev) (g : Nat) : Prop :=
  (∃ fam, dev.queueFamilies.get? g = some fam ∧ hasGraphicsFlag fam = true) ∧
  ∀ j fam, j < g → dev.queueFamilies.get? j = some fam → hasGraphicsFlag fam = false

/-- `p` is the first queue family index that reports presentation support. -/
def IsFirstPresentIdx (dev : PhysicalDev) (p : Nat) : Prop :=
  p < dev.queueFamilies.length ∧ ReportsPresentSupport dev p ∧
  ∀ j, j < p → ¬ReportsPresentSupport dev j

/-- The suitability predicates of the selection algorithm, as the
specification lists them: tessellation-shader feature present, device type
discrete or integrated GPU, every required extension name present in the
device's (successfully queried) extension-properties list, the swapchain
parameters derivable when the swapchain extension is required, and the queue
family checks. -/
def Suitable (dev : PhysicalDev) (devExts : List String) (winSize : Extent2D) : Prop :=
  dev.featuresTessellationShader ≠ 0 ∧
  (dev.deviceType = PHYSICAL_DEVICE_TYPE_DISCRETE_GPU ∨
   dev.deviceType = PHYSICAL_DEVICE_TYPE_INTEGRATED_GPU) ∧
  (∃ exts, dev.extensionProperties = Except.ok exts ∧ ∀ name ∈ devExts, name ∈ exts) ∧
  (devExts.contains swapchainExtName = true →
     ∃ ci, VkCreateInfo.getSwapchainProperties {} dev winSize = some ci) ∧
  HasGraphicsFamily dev ∧ HasPresentFamily dev

/-- A concrete device whose per-queue-family surface-support query fails with
a native error at every index, while every other query succeeds and every
other suitability predicate holds. -/
def errDevice : PhysicalDev where
  featuresTessellationShader := 1
  deviceType := PHYSICAL_DEVICE_TYPE_DISCRETE_GPU
  extensionProperties := Except.ok [swapchainExtName]
  queueFamilies := [{ queueFlags := 1 }]
  supportsSurface := fun _ => Except.error (VkuError.vulkan (-1))
  surfaceCapabilities := Except.ok
    { minImageCount := 2, maxImageCount := 0
      currentExtent := { width := 100, height := 100 }
      minImageExtent := { width := 1, height := 1 }
      maxImageExtent := { width := 4096, height := 4096 } }
  surfaceFormats := Except.ok [targetFormat]
  surfacePresentModes := Except.ok [PRESENT_MODE_FIFO]
  createDevice := Except.ok ()

theorem position_none_iff (p : α → Bool) :
    ∀ l : List α, position p l = none ↔ ∀ j b, l.get? j = some b → p b = false
  | [] => by simp [position]
  | a :: rest => by
    rw [position]
    cases hpa : p a with
    | true =>
      rw [if_pos rfl]
      constructor
      · intro hFalse; cases hFalse
      · intro hall
        have ha := hall 0 a rfl
        rw [hpa] at ha; cases ha
    | false =>
      rw [if_neg (by simp), Option.map_eq_none', position_none_iff p rest]
      constructor
      · intro hall j b hj
        cases j with
        | zero =>
          rw [List.get?_cons_zero, Option.some.injEq] at hj
          rw [← hj]; exact hpa
        | succ j => exact hall j b (by rw [List.get?_cons_succ] at hj; exact hj)
      · intro hall j b hj
        exact hall (j + 1) b hj

theorem position_some_spec (p : α → Bool) :
    ∀ (l : List α) (k : Nat), position p l = some k →
      (∃ a, l.get? k = some a ∧ p a = true) ∧
      ∀ j b, j < k → l.get? j = some b → p b = false
  | [], k => by simp [position]
  | a :: rest, k => by
    rw [position]
    cases hpa : p a with
    | true =>
      rw [if_pos rfl, Option.some.injEq]
      rintro rfl
      exact ⟨⟨a, rfl, hpa⟩, fun j b hj => by omega⟩
    | false =>
      rw [if_neg (by simp), Option.map_eq_some']
      rintro ⟨k', hk', rfl⟩
      obtain ⟨⟨b, hb, hpb⟩, hbefore⟩ := position_some_spec p rest k' hk'
      refine ⟨⟨b, hb, hpb⟩, ?_⟩
      intro j c hj hc
      cases j with
      | zero =>
        rw [List.get?_cons_zero, Option.some.injEq] at hc
        rw [← hc]; exact hpa
      | succ j =>
        exact hbefore j c (by omega) (by rw [List.get?_cons_succ] at hc; exact hc)

theorem findRangeFrom_none_iff (p : Nat → Bool) :
    ∀ (n i : Nat), findRangeFrom p i n = none ↔ ∀ j, i ≤ j → j < i + n → p j = false
  | 0, i => by
    rw [findRangeFrom]
    exact ⟨fun _ j h1 h2 => by omega, fun _ => rfl⟩
  | n + 1, i => by
    rw [findRangeFrom]
    cases hpa : p i with
    | true =>
      rw [if_pos rfl]
      constructor
      · intro hFalse; cases hFalse
      · intro hall
        have hi := hall i (Nat.le_refl i) (by omega)
        rw [hpa] at hi; cases hi
    | false =>
      rw [if_neg (by simp), findRangeFrom_none_iff p n (i + 1)]
      constructor
      · intro hall j h1 h2
        rcases Nat.eq_or_lt_of_le h1 with heq | hlt
        · rw [← heq]; exact hpa
        · exact hall j hlt (by omega)
      · intro hall j h1 h2
        exact hall j (by omega) (by omega)

theorem findRangeFrom_some_spec (p : Nat → Bool) :
    ∀ (n i k : Nat), findRangeFrom p i n = some k →
      i ≤ k ∧ k < i + n ∧ p k = true ∧ ∀ j, i ≤ j → j < k → p j = false
  | 0, i, k => by
    rw [findRangeFrom]
    intro hFalse; cases hFalse
  | n + 1, i, k => by
    rw [findRangeFrom]
    cases hpa : p i with
    | true =>
      rw [if_pos rfl, Option.some.injEq]
      rintro rfl
      exact ⟨Nat.le_refl _, by omega, hpa, fun j h1 h2 => by omega⟩
    | false =>
      rw [if_neg (by simp)]
      intro hk
      obtain ⟨h1, h2, h3, h4⟩ := findRangeFrom_some_spec p n (i + 1) k hk
      refine ⟨by omega, by omega, h3, ?_⟩
      intro j hj1 hj2
      rcases Nat.eq_or_lt_of_le hj1 with heq | hlt
      · rw [← heq]; exact hpa
      · exact h4 j hlt hj2

theorem resultUnwrapOr_false_eq_true (r : Except VkuError Bool) :
    resultUnwrapOr r false = true ↔ r = Except.ok true := by
  cases r with
  | ok b => cases b <;> simp [resultUnwrapOr]
  | error e => simp [resultUnwrapOr]

theorem rustClamp_eq (x lo hi : Nat) (h : lo ≤ hi) :
    rustClamp x lo hi = Nat.max lo (Nat.min x hi) := by
  rw [rustClamp]
  rcases Nat.lt_or_ge x lo with h1 | h1
  · rw [if_pos h1]
    exact (max_eq_left (Nat.le_trans (Nat.min_le_left x hi) (Nat.le_of_lt h1))).symm
  · rw [if_neg (Nat.not_lt.mpr h1)]
    rcases Nat.lt_or_ge hi x with h2 | h2
    · rw [if_pos h2]
      have hmin : Nat.min x hi = hi := min_eq_right (Nat.le_of_lt h2)
      rw [hmin]
      exact (max_eq_right h).symm
    · rw [if_neg (Nat.not_lt.mpr h2)]
      have hmin : Nat.min x hi = x := min_eq_left h2
      rw [hmin]
      exact (max_eq_right h1).symm

theorem findPreferredFormat_eq :
    ∀ fmts : List SurfaceFormatKHR,
      findPreferredFormat fmts = if targetFormat ∈ fmts then some targetFormat else none
  | [] => by simp [findPreferredFormat]
  | a :: rest => by
    by_cases ha : a = targetFormat
    · subst ha
      simp [findPreferredFormat, targetFormat, FORMAT_R8G8B8A8_SRGB, COLOR_SPACE_SRGB_NONLINEAR]
    · have hcond :
          (a.format == FORMAT_R8G8B8A8_SRGB && a.colorSpace == COLOR_SPACE_SRGB_NONLINEAR)
            = false := by
        by_contra hc
        rw [Bool.not_eq_false, Bool.and_eq_true, beq_iff_eq, beq_iff_eq] at hc
        apply ha
        cases a
        simp only [targetFormat] at hc ⊢
        simp_all
      have hmem : (targetFormat ∈ a :: rest) ↔ (targetFormat ∈ rest) := by
        constructor
        · intro hm
          rcases List.mem_cons.mp hm with heq | hm
          · exact absurd heq.symm ha
          · exact hm
        · exact fun hm => List.mem_cons_of_mem a hm
      rw [findPreferredFormat, if_neg (by simp [hcond]), findPreferredFormat_eq rest]
      by_cases hm : targetFormat ∈ rest
      · rw [if_pos hm, if_pos (hmem.mpr hm)]
      · rw [if_neg hm, if_neg (fun hc => hm (hmem.mp hc))]

theorem chooseFormat_eq (fmts : List SurfaceFormatKHR) :
    chooseFormat fmts = if targetFormat ∈ fmts then some targetFormat else fmts.head? := by
  rw [chooseFormat, findPreferredFormat_eq]
  by_cases h : targetFormat ∈ fmts <;> simp [h]

theorem getQueueFamilyIndices_some_spec (self : VkCreateInfo) (dev : PhysicalDev)
    (r : VkCreateInfo) (h : self.getQueueFamilyIndices dev = some r) :
    IsFirstGraphicsIdx dev r.graphicsQueueId ∧ IsFirstPresentIdx dev r.presentQueueId ∧
    r = { self with graphicsQueueId := r.graphicsQueueId,
                    presentQueueId := r.presentQueueId } := by
  rw [VkCreateInfo.getQueueFamilyIndices] at h
  cases hp : position hasGraphicsFlag dev.queueFamilies with
  | none => rw [hp] at h; cases h
  | some g =>
    rw [hp] at h
    cases hf : findRangeFrom (fun fam => resultUnwrapOr (dev.supportsSurface fam) false)
        0 dev.queueFamilies.length with
    | none => rw [hf] at h; cases h
    | some k =>
      rw [hf, Option.some.injEq] at h
      subst h
      obtain ⟨⟨a, ha, hpa⟩, hbefore⟩ := position_some_spec _ _ _ hp
      obtain ⟨_, hlt, hpk, hbef⟩ := findRangeFrom_some_spec _ _ _ _ hf
      refine ⟨⟨⟨a, ha, hpa⟩, hbefore⟩, ⟨by simpa using hlt,
        (resultUnwrapOr_false_eq_true _).mp hpk, ?_⟩, rfl⟩
      intro j hj hrep
      have hjf := hbef j (Nat.zero_le j) hj
      rw [(resultUnwrapOr_false_eq_true _).mpr hrep] at hjf
      cases hjf

theorem getQueueFamilyIndices_none_iff (self : VkCreateInfo) (dev : PhysicalDev) :
    self.getQueueFamilyIndices dev = none ↔
      ¬HasGraphicsFamily dev ∨ ¬HasPresentFamily dev := by
  rw [VkCreateInfo.getQueueFamilyIndices]
  cases hp : position hasGraphicsFlag dev.queueFamilies with
  | none =>
    apply iff_of_true rfl
    left
    rw [position_none_iff] at hp
    rintro ⟨j, fam, hj, hflag⟩
    rw [hp j fam hj] at hflag; cases hflag
  | some g =>
    cases hf : findRangeFrom (fun fam => resultUnwrapOr (dev.supportsSurface fam) false)
        0 dev.queueFamilies.length with
    | none =>
      apply iff_of_true rfl
      right
      rw [findRangeFrom_none_iff] at hf
      rintro ⟨i, hi, hrep⟩
      have hif := hf i (Nat.zero_le i) (by omega)
      rw [(resultUnwrapOr_false_eq_true _).mpr hrep] at hif
      cases hif
    | some k =>
      apply iff_of_false (fun hc => Option.noConfusion hc)
      intro hor
      rcases hor with hng | hnp
      · obtain ⟨⟨a, ha, hpa⟩, _⟩ := position_some_spec _ _ _ hp
        exact hng ⟨g, a, ha, hpa⟩
      · obtain ⟨_, hlt, hpk, _⟩ := findRangeFrom_some_spec _ _ _ _ hf
        exact hnp ⟨k, by simpa using hlt, (resultUnwrapOr_false_eq_true _).mp hpk⟩

theorem getQueueFamilyIndices_isSome_iff (self : VkCreateInfo) (dev : PhysicalDev) :
    (self.getQueueFamilyIndices dev).isSome = true ↔
      HasGraphicsFamily dev ∧ HasPresentFamily dev := by
  rw [Option.isSome_iff_ne_none, Ne, getQueueFamilyIndices_none_iff, not_or, not_not, not_not]

theorem new_ok_eq (dev : PhysicalDev) (devExts : List String) (winSize : Extent2D)
    (exts : List String) (hext : dev.extensionProperties = Except.ok exts) :
    VkCreateInfo.new dev devExts winSize =
      if (dev.featuresTessellationShader == 0 || !acceptedDevTypes.contains dev.deviceType) then
        none
      else if !(devExts.all fun extName => exts.contains extName) then
        none
      else
        match (if devExts.contains swapchainExtName then
                 VkCreateInfo.getSwapchainProperties {} dev winSize
               else some {}) with
        | none => none
        | some createInfo => createInfo.getQueueFamilyIndices dev := by
  rw [VkCreateInfo.new, hext]

theorem new_isSome_iff (dev : PhysicalDev) (devExts : List String) (winSize : Extent2D) :
    (VkCreateInfo.new dev devExts winSize).isSome = true ↔
      Suitable dev devExts winSize := by
  cases hext : dev.extensionProperties with
  | error e =>
    rw [VkCreateInfo.new, hext]
    apply iff_of_false (by simp)
    rintro ⟨_, _, ⟨exts, hok, _⟩, _⟩
    rw [hext] at hok
    cases hok
  | ok exts =>
    rw [new_ok_eq dev devExts winSize exts hext]
    by_cases htess : dev.featuresTessellationShader = 0
    · rw [if_pos (by rw [htess]; simp)]
      apply iff_of_false (by simp)
      rintro ⟨hne, _⟩
      exact hne htess
    · by_cases htype : dev.deviceType = PHYSICAL_DEVICE_TYPE_DISCRETE_GPU ∨
          dev.deviceType = PHYSICAL_DEVICE_TYPE_INTEGRATED_GPU
      · have hmem : dev.deviceType ∈ acceptedDevTypes := by
          rcases htype with h | h <;> simp [acceptedDevTypes, h]
        have h1 : (dev.featuresTessellationShader == 0) = false := by
          simp only [beq_eq_false_iff_ne, ne_eq]
          exact htess
        have h2 : acceptedDevTypes.contains dev.deviceType = true := List.elem_iff.mpr hmem
        rw [if_neg (by rw [h1, h2]; decide)]
        by_cases hall : ∀ name ∈ devExts, name ∈ exts
        · have hc2 : (devExts.all fun extName => exts.contains extName) = true := by
            rw [List.all_eq_true]
            intro x hx
            exact List.elem_iff.mpr (hall x hx)
          rw [if_neg (by rw [hc2]; decide)]
          by_cases hsw : devExts.contains swapchainExtName = true
          · rw [if_pos hsw]
            cases hgsp : VkCreateInfo.getSwapchainProperties {} dev winSize with
            | none =>
              apply iff_of_false (by simp)
              rintro ⟨_, _, _, hswp, _⟩
              obtain ⟨ci, hci⟩ := hswp hsw
              rw [hgsp] at hci
              cases hci
            | some ci =>
              show (ci.getQueueFamilyIndices dev).isSome = true ↔ _
              rw [getQueueFamilyIndices_isSome_iff]
              constructor
              · rintro ⟨hg, hp⟩
                exact ⟨htess, htype, ⟨exts, hext, hall⟩, fun _ => ⟨ci, hgsp⟩, hg, hp⟩
              · rintro ⟨_, _, _, _, hg, hp⟩
                exact ⟨hg, hp⟩
          · rw [if_neg hsw]
            show (VkCreateInfo.getQueueFamilyIndices {} dev).isSome = true ↔ _
            rw [getQueueFamilyIndices_isSome_iff]
            constructor
            · rintro ⟨hg, hp⟩
              exact ⟨htess, htype, ⟨exts, hext, hall⟩, fun hc => absurd hc hsw, hg, hp⟩
            · rintro ⟨_, _, _, _, hg, hp⟩
              exact ⟨hg, hp⟩
        · have hc2 : (devExts.all fun extName => exts.contains extName) = false := by
            rw [Bool.eq_false_iff]
            intro hc
            rw [List.all_eq_true] at hc
            exact hall fun name hn => List.elem_iff.mp (hc name hn)
          rw [if_pos (by rw [hc2]; decide)]
          apply iff_of_false (by simp)
          rintro ⟨_, _, ⟨exts2, hok, hsub⟩, _⟩
          rw [hext] at hok
          injection hok with heq
          subst heq
          exact hall hsub
      · have hcont : acceptedDevTypes.contains dev.deviceType = false := by
          rw [Bool.eq_false_iff]
          intro hc
          apply htype
          have hm := List.elem_iff.mp hc
          simpa [acceptedDevTypes, PHYSICAL_DEVICE_TYPE_DISCRETE_GPU,
            PHYSICAL_DEVICE_TYPE_INTEGRATED_GPU] using hm
        rw [if_pos (by rw [hcont]; simp)]
        apply iff_of_false (by simp)
        rintro ⟨_, htype2, _⟩
        exact htype htype2

theorem findSuitable_none_iff (devExts : List String) (winSize : Extent2D) :
    ∀ devs : List PhysicalDev,
      findSuitable devExts winSize devs = none ↔
        ∀ j d, devs.get? j = some d → VkCreateInfo.new d devExts winSize = none
  | [] => by simp [findSuitable]
  | dev :: rest => by
    rw [findSuitable]
    cases hnew : VkCreateInfo.new dev devExts winSize with
    | some ci =>
      constructor
      · intro hc; cases hc
      · intro hall
        have h0 := hall 0 dev rfl
        rw [hnew] at h0; cases h0
    | none =>
      rw [Option.map_eq_none', findSuitable_none_iff devExts winSize rest]
      constructor
      · intro hall j d hj
        cases j with
        | zero =>
          rw [List.get?_cons_zero, Option.some.injEq] at hj
          rw [← hj]; exact hnew
        | succ j => exact hall j d (by rw [List.get?_cons_succ] at hj; exact hj)
      · intro hall j d hj
        exact hall (j + 1) d hj

theorem findSuitable_some_spec (devExts : List String) (winSize : Extent2D) :
    ∀ (devs : List PhysicalDev) (i : Nat) (ci : VkCreateInfo),
      findSuitable devExts winSize devs = some (i, ci) →
        (∃ d, devs.get? i = some d ∧ VkCreateInfo.new d devExts winSize = some ci) ∧
        ∀ j d, j < i → devs.get? j = some d → VkCreateInfo.new d devExts winSize = none
  | [], i, ci => by
    rw [findSuitable]
    intro hc; cases hc
  | dev :: rest, i, ci => by
    rw [findSuitable]
    cases hnew : VkCreateInfo.new dev devExts winSize with
    | some ci0 =>
      rw [Option.some.injEq]
      intro h
      injection h with h1 h2
      subst h1; subst h2
      exact ⟨⟨dev, rfl, hnew⟩, fun j d hj => by omega⟩
    | none =>
      rw [Option.map_eq_some']
      rintro ⟨⟨i2, ci2⟩, hfind, heq⟩
      injection heq with h1 h2
      subst h1; subst h2
      obtain ⟨⟨d, hd, hnewd⟩, hbefore⟩ := findSuitable_some_spec devExts winSize rest i2 ci2 hfind
      refine ⟨⟨d, by rw [List.get?_cons_succ]; exact hd, hnewd⟩, ?_⟩
      intro j d2 hj hd2
      cases j with
      | zero =>
        rw [List.get?_cons_zero, Option.some.injEq] at hd2
        rw [← hd2]; exact hnew
      | succ j =>
        exact hbefore j d2 (by omega) (by rw [List.get?_cons_succ] at hd2; exact hd2)

theorem gsp_ok_eq (self : VkCreateInfo) (dev : PhysicalDev) (winSize : Extent2D)
    (caps : SurfaceCapabilitiesKHR) (fmts : List SurfaceFormatKHR) (pmods : List Nat)
    (hc : dev.surfaceCapabilities = Except.ok caps)
    (hf : dev.surfaceFormats = Except.ok fmts)
    (hp : dev.surfacePresentModes = Except.ok pmods) :
    self.getSwapchainProperties dev winSize =
      match chooseFormat fmts with
      | none => none
      | some format =>
        match choosePresentMode pmods with
        | none => none
        | some pmode =>
          some { self with
            swapchainFmt := format
            swapchainPmode := pmode
            swapchainExtent := deriveExtent caps winSize
            swapchainImgs := deriveImageCount caps } := by
  rw [VkCreateInfo.getSwapchainProperties, hc, hf, hp]

/-- C1: for every device list, the selection algorithm visits devices in
enumeration order and returns the first index whose device satisfies all
suitability predicates (tessellation feature, discrete/integrated type,
required extensions present, swapchain-parameter and queue-family checks);
if no device satisfies them it returns the no-suitable-device error, and it
never returns an index of an unsuitable device. -/
theorem selection_returns_first_suitable (devExts : List String) (winSize : Extent2D)
    (devs : List PhysicalDev) :
    match VulkanState.selectDevice devExts winSize devs with
    | .error e =>
      e = AppError.noSuitablePhyDev ∧
      ∀ j d, devs.get? j = some d → ¬Suitable d devExts winSize
    | .ok (i, ci) =>
      (∃ d, devs.get? i = some d ∧ VkCreateInfo.new d devExts winSize = some ci ∧
        Suitable d devExts winSize) ∧
      ∀ j d, j < i → devs.get? j = some d → ¬Suitable d devExts winSize := by
  rw [VulkanState.selectDevice]
  cases hfs : findSuitable devExts winSize devs with
  | none =>
    refine ⟨rfl, ?_⟩
    rw [findSuitable_none_iff] at hfs
    intro j d hj hsuit
    have hn := hfs j d hj
    rw [← new_isSome_iff, hn] at hsuit
    cases hsuit
  | some r =>
    obtain ⟨i, ci⟩ := r
    obtain ⟨⟨d, hd, hnew⟩, hbefore⟩ := findSuitable_some_spec devExts winSize devs i ci hfs
    refine ⟨⟨d, hd, hnew, ?_⟩, ?_⟩
    · rw [← new_isSome_iff, hnew]; rfl
    · intro j d2 hj hd2 hsuit
      have hn := hbefore j d2 hj hd2
      rw [← new_isSome_iff, hn] at hsuit
      cases hsuit

/-- C2: format selection chooses the 8-bit RGBA SRGB / non-linear SRGB entry
whenever the reported list contains it, falls back to the first element of a
non-empty list without it, and fails on the empty list (rejecting the
device). -/
theorem format_selection_spec (fmts : List SurfaceFormatKHR) :
    (targetFormat ∈ fmts → chooseFormat fmts = some targetFormat) ∧
    (targetFormat ∉ fmts → chooseFormat fmts = fmts.head?) ∧
    chooseFormat [] = none ∧
    (∀ (dev : PhysicalDev) (winSize : Extent2D) (self : VkCreateInfo),
      dev.surfaceFormats = Except.ok [] →
      self.getSwapchainProperties dev winSize = none) := by
  refine ⟨?_, ?_, rfl, ?_⟩
  · intro hm; rw [chooseFormat_eq, if_pos hm]
  · intro hm; rw [chooseFormat_eq, if_neg hm]
  · intro dev winSize self hfmts
    rw [VkCreateInfo.getSwapchainProperties]
    cases hcaps : dev.surfaceCapabilities with
    | error e => rfl
    | ok caps =>
      rw [hfmts]
      cases hpm : dev.surfacePresentModes with
      | error e => rfl
      | ok pmods => rfl

/-- C3: present-mode selection chooses mailbox whenever reported, FIFO for a
non-empty list without mailbox, and fails on the empty list (rejecting the
device). -/
theorem present_mode_selection_spec (pmods : List Nat) :
    (PRESENT_MODE_MAILBOX ∈ pmods → choosePresentMode pmods = some PRESENT_MODE_MAILBOX) ∧
    (PRESENT_MODE_MAILBOX ∉ pmods → pmods ≠ [] →
      choosePresentMode pmods = some PRESENT_MODE_FIFO) ∧
    choosePresentMode [] = none ∧
    (∀ (dev : PhysicalDev) (winSize : Extent2D) (self : VkCreateInfo),
      dev.surfacePresentModes = Except.ok [] →
      self.getSwapchainProperties dev winSize = none) := by
  refine ⟨?_, ?_, rfl, ?_⟩
  · intro hm
    have hne : pmods ≠ [] := List.ne_nil_of_mem hm
    rw [choosePresentMode, if_neg (by simp [hne]), if_pos (List.elem_iff.mpr hm)]
  · intro hm hne
    rw [choosePresentMode, if_neg (by simp [hne]),
      if_neg (fun hc => hm (List.elem_iff.mp hc))]
  · intro dev winSize self hpm
    cases hcaps : dev.surfaceCapabilities with
    | error e => rw [VkCreateInfo.getSwapchainProperties, hcaps]
    | ok caps =>
      cases hf : dev.surfaceFormats with
      | error e => rw [VkCreateInfo.getSwapchainProperties, hcaps, hf]
      | ok fmts =>
        rw [gsp_ok_eq self dev winSize caps fmts [] hcaps hf hpm]
        cases hcf : chooseFormat fmts with
        | none => rfl
        | some fmt => rfl

/-- C4: when the surface capabilities report the `(u32::MAX, u32::MAX)`
sentinel, the derived extent is the window size clamped componentwise into
the reported extent range; for any other current extent that value is
returned unchanged regardless of the window size. -/
theorem extent_derivation_spec (caps : SurfaceCapabilitiesKHR) (winSize : Extent2D) :
    (caps.currentExtent = { width := u32Max, height := u32Max } →
      caps.minImageExtent.width ≤ caps.maxImageExtent.width →
      caps.minImageExtent.height ≤ caps.maxImageExtent.height →
      deriveExtent caps winSize =
        { width := Nat.max caps.minImageExtent.width
            (Nat.min winSize.width caps.maxImageExtent.width)
          height := Nat.max caps.minImageExtent.height
            (Nat.min winSize.height caps.maxImageExtent.height) }) ∧
    (caps.currentExtent ≠ { width := u32Max, height := u32Max } →
      deriveExtent caps winSize = caps.currentExtent) := by
  constructor
  · intro hcur hw hh
    rw [deriveExtent, if_pos (by rw [hcur]; exact ⟨rfl, rfl⟩)]
    rw [rustClamp_eq _ _ _ hw, rustClamp_eq _ _ _ hh]
  · intro hcur
    have hne : ¬(caps.currentExtent.width = u32Max ∧ caps.currentExtent.height = u32Max) := by
      intro hp
      apply hcur
      have heta : caps.currentExtent =
          { width := caps.currentExtent.width, height := caps.currentExtent.height } := rfl
      rw [heta, hp.1, hp.2]
    rw [deriveExtent, if_neg hne]

/-- C5: the derived image count is `min_image_count + 1` when
`max_image_count` is 0, else `min(max_image_count, min_image_count + 1)`
(in `u32` arithmetic); in particular max=0,min=2 gives 3; max=3,min=2 gives
3; max=2,min=2 gives 2. -/
theorem image_count_derivation_spec (caps : SurfaceCapabilitiesKHR) :
    (caps.minImageCount < u32Max →
      deriveImageCount caps =
        if caps.maxImageCount = 0 then caps.minImageCount + 1
        else Nat.min caps.maxImageCount (caps.minImageCount + 1)) ∧
    (caps.maxImageCount = 0 → caps.minImageCount = 2 → deriveImageCount caps = 3) ∧
    (caps.maxImageCount = 3 → caps.minImageCount = 2 → deriveImageCount caps = 3) ∧
    (caps.maxImageCount = 2 → caps.minImageCount = 2 → deriveImageCount caps = 2) := by
  have hmod : caps.minImageCount < u32Max →
      (caps.minImageCount + 1) % 2 ^ 32 = caps.minImageCount + 1 := by
    intro h
    apply Nat.mod_eq_of_lt
    rw [u32Max] at h
    omega
  refine ⟨?_, ?_, ?_, ?_⟩
  · intro h
    rw [deriveImageCount, hmod h]
  · intro h1 h2
    rw [deriveImageCount, if_pos h1, h2]
    decide
  · intro h1 h2
    rw [deriveImageCount, h1, h2]
    decide
  · intro h1 h2
    rw [deriveImageCount, h1, h2]
    decide

/-- C6: the chosen graphics index is the first queue family whose flags
include graphics; the chosen present index is, independently, the first index
reporting presentation support against the bound surface; the device is
rejected when either does not exist. -/
theorem queue_family_resolution_spec (dev : PhysicalDev) (self : VkCreateInfo) :
    (∀ r, self.getQueueFamilyIndices dev = some r →
      IsFirstGraphicsIdx dev r.graphicsQueueId ∧ IsFirstPresentIdx dev r.presentQueueId) ∧
    (self.getQueueFamilyIndices dev = none ↔
      ¬HasGraphicsFamily dev ∨ ¬HasPresentFamily dev) := by
  refine ⟨?_, getQueueFamilyIndices_none_iff self dev⟩
  intro r hr
  obtain ⟨hg, hp, _⟩ := getQueueFamilyIndices_some_spec self dev r hr
  exact ⟨hg, hp⟩

/-- C7: the produced queue-family plan has exactly one entry when the
resolved graphics and present indices coincide and exactly two when they
differ, each entry carrying the single priority `1.0`, and every plan
produced this way satisfies the QueueFamilyPlan invariant (non-empty, unique
indices, each priority list summing to 1). -/
theorem queue_family_plan_spec (self : VkCreateInfo) :
    (self.queueFamilyCreationInfos =
      if self.graphicsQueueId = self.presentQueueId then
        [{ index := self.graphicsQueueId, priorities := [1] }]
      else
        [{ index := self.graphicsQueueId, priorities := [1] },
         { index := self.presentQueueId, priorities := [1] }]) ∧
    QueueFamilyPlanInvariant self.queueFamilyCreationInfos := by
  by_cases hgp : self.graphicsQueueId = self.presentQueueId
  · have heq : self.queueFamilyCreationInfos =
        [{ index := self.graphicsQueueId, priorities := [1] }] := by
      rw [VkCreateInfo.queueFamilyCreationInfos]
      simp [hgp]
    refine ⟨by rw [heq, if_pos hgp], ?_⟩
    rw [heq]
    refine ⟨by simp, by simp, ?_⟩
    intro info hinfo
    rw [List.mem_singleton] at hinfo
    rw [hinfo]
    simp
  · have heq : self.queueFamilyCreationInfos =
        [{ index := self.graphicsQueueId, priorities := [1] },
         { index := self.presentQueueId, priorities := [1] }] := by
      rw [VkCreateInfo.queueFamilyCreationInfos]
      simp [hgp]
    refine ⟨by rw [heq, if_neg hgp], ?_⟩
    rw [heq]
    refine ⟨by simp, by simp [hgp], ?_⟩
    intro info hinfo
    rcases List.mem_cons.mp hinfo with h | h
    · rw [h]; simp
    · rw [List.mem_singleton] at h
      rw [h]; simp

/-- C8 counterexample: a device whose surface-support query fails with a
native error at queue family 0; the selection layer does not propagate that
native failure — the run ends in the no-suitable-device error, never in a
typed native error. -/
theorem native_failure_not_propagated :
    errDevice.supportsSurface 0 = Except.error (VkuError.vulkan (-1)) ∧
    VulkanState.selectDevice [swapchainExtName] { width := 200, height := 200 } [errDevice] =
      Except.error AppError.noSuitablePhyDev ∧
    ∀ e : VkuError,
      VulkanState.selectDevice [swapchainExtName] { width := 200, height := 200 } [errDevice] ≠
        Except.error (AppError.vku e) := by
  have h2 : VulkanState.selectDevice [swapchainExtName] { width := 200, height := 200 }
      [errDevice] = Except.error AppError.noSuitablePhyDev := by rfl
  refine ⟨rfl, h2, ?_⟩
  intro e hc
  rw [h2] at hc
  injection hc with h3
  cases h3

/-- C8 amended: the `vku` wrapper queries return native failures to the
selection layer as typed results, but the selection layer locally recovers
from them — a failed per-queue-family surface-support query is treated as
lack of support (`unwrap_or(false)`), so a device all of whose support
queries fail is rejected as unsuitable, and the selection result is never a
propagated native error. -/
theorem selection_recovers_native_failure (dev : PhysicalDev) (self : VkCreateInfo)
    (devExts : List String) (winSize : Extent2D) (devs : List PhysicalDev) :
    ((∀ i, i < dev.queueFamilies.length →
        ∃ e, dev.supportsSurface i = Except.error e) →
      self.getQueueFamilyIndices dev = none) ∧
    ∀ e : VkuError,
      VulkanState.selectDevice devExts winSize devs ≠ Except.error (AppError.vku e) := by
  constructor
  · intro hall
    rw [getQueueFamilyIndices_none_iff]
    right
    rintro ⟨i, hi, hrep⟩
    obtain ⟨e, he⟩ := hall i hi
    have hrep2 : dev.supportsSurface i = Except.ok true := hrep
    rw [hrep2] at he
    cases he
  · intro e hc
    rw [VulkanState.selectDevice] at hc
    cases hfs : findSuitable devExts winSize devs with
    | none =>
      rw [hfs] at hc
      injection hc with h3
      cases h3
    | some r =>
      rw [hfs] at hc
      cases hc

/-- C9: for every ownership chain the wrapper types can form, dropping the
outermost wrapper invokes the native teardown calls in strictly reverse
creation order; in particular the full chain of `main.rs`
(`LogicalDev<Surface<DebugUtils<Instance>>>`) tears down device, surface,
messenger, instance in that order. -/
theorem destruction_reverse_creation_order :
    (∀ c : Chain, dropTrace c = (creationTrace c).reverse) ∧
    dropTrace (Chain.logicalDev (Chain.surface (Chain.debugUtils Chain.inst))) =
      [NativeResource.vkDevice, NativeResource.vkSurface,
       NativeResource.debugMessenger, NativeResource.vkInstance] := by
  have hgen : ∀ c : Chain, dropTrace c = (creationTrace c).reverse := by
    intro c
    induction c with
    | inst => rfl
    | debugUtils c ih => simp [dropTrace, creationTrace, ih]
    | surface c ih => simp [dropTrace, creationTrace, ih]
    | physicalDevList c ih => simp [dropTrace, creationTrace, ih]
    | logicalDev c ih => simp [dropTrace, creationTrace, ih]
  exact ⟨hgen, rfl⟩

/-- C10: `PhysicalDevList::select` panics (in every build configuration) for
every index greater than or equal to the number of enumerated devices; it
never returns a typed error or a device for an out-of-range index. -/
theorem select_out_of_range_panics (l : PhysicalDevList) (debugAssertions : Bool)
    (selectedDev : Nat) (queueFamilyInfos : List QueueFamilyInfo)
    (h : l.devices.length ≤ selectedDev) :
    l.select debugAssertions selectedDev queueFamilyInfos = RunResult.panic := by
  rw [PhysicalDevList.select]
  have hget : l.devices.get? selectedDev = none := List.get?_eq_none.mpr h
  by_cases h1 : debugAssertions = true ∧ queueFamilyInfos.isEmpty = true
  · rw [if_pos h1]
  · rw [if_neg h1]
    by_cases h2 : debugAssertions = true ∧
        ¬(queueFamilyInfos.map QueueFamilyInfo.index).Nodup
    · rw [if_pos h2]
    · rw [if_neg h2, hget]

/-- C10 witness: selecting index 3 from an empty catalog panics. -/
theorem select_out_of_range_panics_witness :
    (PhysicalDevList.mk []).devices.length ≤ 3 ∧
    PhysicalDevList.select (PhysicalDevList.mk []) true 3
      [{ index := 0, priorities := [1] }] = RunResult.panic :=
  ⟨by decide, select_out_of_range_panics (PhysicalDevList.mk []) true 3
    [{ index := 0, priorities := [1] }] (by decide)⟩
